import Mathlib

/-!
Shallow embedding of the `scarconf` repository (files `scarconf/core.py` and
`scarconf/io.py`) and proofs about the claims of its specification.

Python machine floats are modelled as rationals (`ℚ`); the mercator math of
`calc_region`, which uses transcendental functions, is modelled over `ℝ`.
File-system effects (`os.path.exists`, reading `local.conf`, `h5py` node
lookups) are modelled as explicit function parameters supplied by the caller.
-/

namespace Scarconf

/-! ### Python primitive helpers

All text processing is written as structural recursion over `List Char`
(the `data` of a `String`) so that every definition evaluates inside the
kernel. -/

/-- Python `str.strip()` / the whitespace stripping of `int()`/`float()`. -/
def trimChars (l : List Char) : List Char :=
  ((l.dropWhile Char.isWhitespace).reverse.dropWhile Char.isWhitespace).reverse

/-- Python `str.split(sep)` for a one-character separator: adjacent
separators produce empty tokens and the empty string yields `[""]`. -/
def splitChar (c : Char) : List Char → List (List Char)
  | [] => [[]]
  | x :: xs =>
      match splitChar c xs with
      | [] => [[x]]
      | t :: ts => if x = c then [] :: t :: ts else (x :: t) :: ts

/-- Split on a character class (used only for the spec-side reading of
"whitespace-separated"). -/
def splitPred (p : Char → Bool) : List Char → List (List Char)
  | [] => [[]]
  | x :: xs =>
      match splitPred p xs with
      | [] => [[x]]
      | t :: ts => if p x then [] :: t :: ts else (x :: t) :: ts

/-- Value of a run of ASCII decimal digits, as `int(...)` computes it. -/
def natOfDigits (l : List Char) : ℕ :=
  l.foldl (fun n c => 10 * n + (c.toNat - 48)) 0

/-- A non-empty all-digit run and its value. -/
def digitsVal (u : List Char) : Option ℕ :=
  if u ≠ [] ∧ u.all Char.isDigit then some (natOfDigits u) else none

/-- Sign-and-digits core shared by Python `int(str)` and float exponents.
(Underscore digit-group separators are not modelled; no claim exercises
them.) -/
def parsePyIntCore (t : List Char) : Option ℤ :=
  match t with
  | '-' :: u => (digitsVal u).map (fun n => -(n : ℤ))
  | '+' :: u => (digitsVal u).map (fun n => (n : ℤ))
  | u => (digitsVal u).map (fun n => (n : ℤ))

/-- Python `int(str)`: surrounding whitespace is stripped, then an optional
sign and a non-empty digit run. Any other content is a `ValueError`
(`none`). -/
def parsePyInt (s : String) : Option ℤ :=
  parsePyIntCore (trimChars s.data)

/-- Mantissa of a Python float literal (`digits`, `digits.digits`,
`digits.` or `.digits`), already carrying the sign. -/
def parseMantissa (sgn : ℤ) (m : List Char) : Option ℚ :=
  match splitChar '.' m with
  | [i] => (digitsVal i).map (fun n => ((sgn * n : ℤ) : ℚ))
  | [i, f] =>
      if (i ≠ [] ∨ f ≠ []) ∧ i.all Char.isDigit ∧ f.all Char.isDigit then
        some (((sgn * natOfDigits (i ++ f) : ℤ) : ℚ) / ((10 ^ f.length : ℕ) : ℚ))
      else none
  | _ => none

/-- Python `float(str)` on the forms exercised by configuration values:
optional sign, decimal mantissa, optional exponent.  (`inf`/`nan` and
underscore separators are not modelled; no claim exercises them.) -/
def parsePyFloat (s : String) : Option ℚ :=
  let t := trimChars s.data
  let p : ℤ × List Char :=
    match t with
    | '-' :: u => (-1, u)
    | '+' :: u => (1, u)
    | u => (1, u)
  let u := p.2.map (fun c => if c = 'E' then 'e' else c)
  match splitChar 'e' u with
  | [m] => parseMantissa p.1 m
  | [m, e] => do
      let mq ← parseMantissa p.1 m
      let ei ← parsePyIntCore e
      some (mq * (10 : ℚ) ^ ei)
  | _ => none

/-- Python `os.path.join(a, b)` for a non-empty `b` (POSIX rules). -/
def pathJoin (a b : String) : String :=
  if b.data.head? = some '/' then b
  else if a.data = [] ∨ a.data.getLast? = some '/' then a ++ b
  else a ++ "/" ++ b

/-! ### configparser model

A parsed `local.conf` is a list of sections, each a list of key/value pairs.
`read_local_config` receives the *outcome* of `ConfigParser.read`:
`none` when reading raised (malformed file — the bare `except` swallows it),
`some cfg` otherwise (a missing file yields an empty parser, not an error). -/

structure Cfg where
  sections : List (String × List (String × String))
deriving DecidableEq

/-- Lookup of `cfg[group][item]` as an optional value; `have_config cfg group item`
in the source is `(Cfg.lookup c g k).isSome`. -/
def Cfg.lookup (c : Cfg) (g k : String) : Option String :=
  match c.sections.find? (fun p => p.1 == g) with
  | some p => (p.2.find? (fun q => q.1 == k)).map Prod.snd
  | none => none

/-- The `ConfigParser.getboolean` truth table (case-insensitive). A value outside
the table is a `ValueError` (`none`), which the source does not catch. -/
def getboolean (v : String) : Option Bool :=
  let w : String := ⟨v.data.map Char.toLower⟩
  if w = "1" ∨ w = "yes" ∨ w = "true" ∨ w = "on" then some true
  else if w = "0" ∨ w = "no" ∨ w = "false" ∨ w = "off" then some false
  else none

/-- Model of `config_list(cfg, int, ...)` applied to the raw string value: an empty
(falsy) value gives `[]`, otherwise the value is split on single spaces
(`str.split(' ')`) and each token passed to `int`. A token `int` rejects
(e.g. the empty token produced by two adjacent spaces) is an uncaught
`ValueError` (`none`). -/
def config_list_int (v : String) : Option (List ℤ) :=
  if v = "" then some []
  else (splitChar ' ' v.data).mapM (fun t => parsePyIntCore (trimChars t))

/-- Model of `config_list(cfg, float, ...)` applied to the raw string value. -/
def config_list_float (v : String) : Option (List ℚ) :=
  if v = "" then some []
  else (splitChar ' ' v.data).mapM (fun t => parsePyFloat ⟨t⟩)

/-! ### The S3car configuration object

Fields appear in the order `__init__` inserts them into `self.__dict__`;
`check_paths_exist` iterates that order. -/

structure S3car where
  root_path : String
  cluttercal_path : String
  config_path : String
  clean_ts_path : String
  diagnostics_path : String
  raw_ts_path : String
  dualpolqc_path : String
  gpmmatch_path : String
  html_path : String
  log_path : String
  solar_path : String
  sst_path : String
  vols_path : String
  zdr_path : String
  zdr_range : ℚ × ℚ
  zdr_step : ℚ
  zdr_bins : ℤ
  radar_longname : List (ℤ × String)
  country_code : String
  gpm_userid : String
  gpm_requestid : String
  rainptl_enabled : Bool
  region_lat : List ℚ
  region_lon : List ℚ
  tier1_radars : List ℤ
  tier2_radars : List ℤ
  tier3_radars : List ℤ
  censor_radars : List ℤ
  nosun_radars : List ℤ
deriving DecidableEq

/-- Prefixing of a supplied directory by the `S3CAR_ROOT_DIR` environment
variable: plain string concatenation when the variable is set, the directory
unchanged when it is not (`except KeyError: pass`). -/
def resolved_dir (env : Option String) (d : String) : String :=
  match env with
  | some er => er ++ d
  | none => d

/-- Default long-name map built by `_init_longname_default` (insertion
order preserved, as in a Python dict). -/
def longname_default : List (ℤ × String) :=
  [(1, "Melbourne (Broadmeadows)"), (2, "Melbourne"), (3, "Wollongong (Appin)"),
   (4, "Newcastle"), (5, "Carnarvon"), (6, "Geraldton"), (7, "Wyndham"),
   (8, "Gympie (Mt Kanigan)"), (9, "Gove"), (10, "Darwin Airport"),
   (14, "Mt Gambier"), (15, "Dampier"), (16, "Pt Hedland"), (17, "Broome"),
   (19, "Cairns"), (22, "Mackay"), (23, "Gladstone"), (24, "Bowen"),
   (25, "Alice Springs"), (26, "Perth Airport"), (27, "Woomera"),
   (28, "Grafton"), (29, "Learmonth"), (30, "Mildura"), (31, "Albany"),
   (32, "Esperance"), (33, "Ceduna"), (36, "Gulf of Carpentaria (Mornington Is)"),
   (37, "Hobart Airport"), (38, "Newdegate"), (39, "Halls Creek"),
   (40, "Canberra (Captains Flat)"), (41, "Willis Island"),
   (42, "Katherine (Tindal)"), (44, "Giles"), (46, "Adelaide (Sellicks Hill)"),
   (48, "Kalgoorlie"), (49, "Yarrawonga"), (50, "Brisbane (Marburg)"),
   (52, "N.W. Tasmania (West Takone)"), (53, "Moree"), (54, "Sydney (Kurnell)"),
   (55, "Wagga Wagga"), (56, "Longreach"), (58, "South Doodlakine"),
   (62, "Norfolk Island"), (63, "Darwin (Berrimah)"),
   (64, "Adelaide (Buckland Park)"), (66, "Brisbane (Mt Stapylton)"),
   (67, "Warrego"), (68, "Bairnsdale"), (69, "Namoi (Blackjack Mountain)"),
   (70, "Perth (Serpentine)"), (71, "Sydney (Terrey Hills)"), (72, "Emerald"),
   (73, "Townsville (Hervey Range)"), (74, "Greenvale"), (75, "Mount Isa"),
   (76, "Hobart (Mt Koonya)"), (77, "Warruwi"), (78, "Weipa"), (79, "Watheroo"),
   (93, "Brewarrina"), (94, "Hillston"), (95, "Rainbow (Wimmera)"),
   (96, "Yeoval"), (97, "Mildura"), (98, "Taroom"), (105, "Brisbane Airport"),
   (107, "Richmond"), (108, "Darling Downs"), (109, "Goondiwindi"),
   (110, "Tennant Creek")]

/-- The default-building part of `S3car.__init__` (lines 26-70): environment
prefixing of the directories, path derivation, zdr constants, and all
default scalar/collection fields, before `read_local_config` runs. -/
def S3car_init (env : Option String) (root_dir html_dir : String) : S3car :=
  let rd := resolved_dir env root_dir
  let hd := resolved_dir env html_dir
  let zr : ℚ × ℚ := (-2, 2)
  let zs : ℚ := |(8 / 100 : ℚ)|
  { root_path := rd
    cluttercal_path := pathJoin rd "cluttercal"
    config_path := pathJoin rd "config"
    clean_ts_path := pathJoin (pathJoin rd "s3car_diagnostics") "clean"
    diagnostics_path := pathJoin (pathJoin rd "s3car_diagnostics") "diagnostics"
    raw_ts_path := pathJoin (pathJoin rd "s3car_diagnostics") "raw"
    dualpolqc_path := pathJoin rd "dualpol_qc"
    gpmmatch_path := pathJoin rd "gpmmatch"
    html_path := hd
    log_path := pathJoin rd "log"
    solar_path := pathJoin (pathJoin rd "solar") "data"
    sst_path := pathJoin rd "sensitivity"
    vols_path := pathJoin rd "vols"
    zdr_path := pathJoin rd "zdr_monitoring"
    zdr_range := zr
    zdr_step := zs
    -- Python's round is half-to-even; the quotient here is an exact
    -- integer, so the rounding convention cannot matter.
    zdr_bins := round ((zr.2 - zr.1) / zs)
    radar_longname := longname_default
    country_code := "AU"
    gpm_userid := ""
    gpm_requestid := "001"
    rainptl_enabled := true
    region_lat := [-46, -(15 / 2 : ℚ)]
    region_lon := [112, 155]
    tier1_radars := [2, 3, 4, 8, 19, 22, 23, 24, 28, 40, 52, 63, 64, 66, 68, 70, 71, 73, 76]
    tier2_radars := [1, 5, 6, 7, 14, 15, 16, 17, 29, 31, 32, 38, 42, 46, 49, 50, 55, 58, 67,
                     69, 72, 74, 75, 77, 78, 79, 93, 94, 95, 96, 98, 107, 108, 109, 110]
    tier3_radars := [9, 10, 25, 26, 27, 30, 33, 36, 37, 39, 41, 44, 48, 53, 54, 56, 62, 97]
    censor_radars := [30, 100, 101, 102, 103, 104]
    nosun_radars := [6, 31, 32, 48, 95] }

/-- The attributes of `self.__dict__` whose name contains `"path"`, in
insertion order — exactly the set `check_paths_exist` iterates. -/
def pathsOf (s : S3car) : List String :=
  [s.root_path, s.cluttercal_path, s.config_path, s.clean_ts_path,
   s.diagnostics_path, s.raw_ts_path, s.dualpolqc_path, s.gpmmatch_path,
   s.html_path, s.log_path, s.solar_path, s.sst_path, s.vols_path, s.zdr_path]

/-- Model of `check_paths_exist`: scan the path attributes in insertion order and
return the first one the file-system predicate rejects (the path named in
the raised `FileNotFoundError`), or `none` when all exist. -/
def check_paths_exist (ex : String → Bool) (s : S3car) : Option String :=
  (pathsOf s).find? (fun p => !(ex p))

/-- Model of `get_radar_tier`: membership tests in order tier1, tier2, tier3, else 0. -/
def get_radar_tier (s : S3car) (rid : ℤ) : ℤ :=
  if rid ∈ s.tier1_radars then 1
  else if rid ∈ s.tier2_radars then 2
  else if rid ∈ s.tier3_radars then 3
  else 0

/-! ### read_local_config -/

/-- Python dict assignment `d[k] = v`: overwrite in place if the key exists,
append otherwise. -/
def assocSet (m : List (ℤ × String)) (k : ℤ) (v : String) : List (ℤ × String) :=
  if m.any (fun p => p.1 == k) then
    m.map (fun p => if p.1 == k then (k, v) else p)
  else m ++ [(k, v)]

def upd_country (c : Cfg) (s : S3car) : S3car :=
  match c.lookup "country" "code" with
  | some v => { s with country_code := v }
  | none => s

def upd_gpm_userid (c : Cfg) (s : S3car) : S3car :=
  match c.lookup "gpm" "userid" with
  | some v => { s with gpm_userid := v }
  | none => s

def upd_gpm_requestid (c : Cfg) (s : S3car) : S3car :=
  match c.lookup "gpm" "requestid" with
  | some v => { s with gpm_requestid := v }
  | none => s

def upd_rainptl (c : Cfg) (s : S3car) : Option S3car :=
  match c.lookup "rainptl" "enable" with
  | some v => (getboolean v).map (fun b => { s with rainptl_enabled := b })
  | none => some s

def upd_tier1 (c : Cfg) (s : S3car) : Option S3car :=
  match c.lookup "radar" "tier1" with
  | some v => (config_list_int v).map (fun l => { s with tier1_radars := l })
  | none => some s

def upd_tier2 (c : Cfg) (s : S3car) : Option S3car :=
  match c.lookup "radar" "tier2" with
  | some v => (config_list_int v).map (fun l => { s with tier2_radars := l })
  | none => some s

def upd_tier3 (c : Cfg) (s : S3car) : Option S3car :=
  match c.lookup "radar" "tier3" with
  | some v => (config_list_int v).map (fun l => { s with tier3_radars := l })
  | none => some s

def upd_censor (c : Cfg) (s : S3car) : Option S3car :=
  match c.lookup "radar" "censor" with
  | some v => (config_list_int v).map (fun l => { s with censor_radars := l })
  | none => some s

def upd_nosun (c : Cfg) (s : S3car) : Option S3car :=
  match c.lookup "radar" "nosun" with
  | some v => (config_list_int v).map (fun l => { s with nosun_radars := l })
  | none => some s

def upd_region_lat (c : Cfg) (s : S3car) : Option S3car :=
  match c.lookup "region" "lat" with
  | some v => (config_list_float v).map (fun l => { s with region_lat := l })
  | none => some s

def upd_region_lon (c : Cfg) (s : S3car) : Option S3car :=
  match c.lookup "region" "lon" with
  | some v => (config_list_float v).map (fun l => { s with region_lon := l })
  | none => some s

/-- Body of the `for rid in radar_ids` loop: consult section `radar.<id>`
for a `longname` key and record it; a missing section or key only prints a
diagnostic and leaves the state unchanged. -/
def longname_step (c : Cfg) (s : S3car) (rid : ℤ) : S3car :=
  match c.lookup ("radar." ++ toString rid) "longname" with
  | some nm => { s with radar_longname := assocSet s.radar_longname rid nm }
  | none => s

def upd_longnames (c : Cfg) (s : S3car) : Option S3car :=
  match c.lookup "radar" "ids" with
  | some v => (config_list_int v).map (fun ids => ids.foldl (longname_step c) s)
  | none => some s

/-- Model of `read_local_config`.  The argument is the outcome of `cfg.read`:
`none` means the read raised and the bare `except` returned with the
defaults untouched.  `some c` applies the overrides in source order; a
`none` result models an uncaught `ValueError` from `int`/`float`/
`getboolean` escaping the constructor. -/
def read_local_config (s : S3car) : Option Cfg → Option S3car
  | none => some s
  | some c =>
    (upd_rainptl c (upd_gpm_requestid c (upd_gpm_userid c (upd_country c s)))).bind fun s4 =>
    (upd_tier1 c s4).bind fun s5 =>
    (upd_tier2 c s5).bind fun s6 =>
    (upd_tier3 c s6).bind fun s7 =>
    (upd_censor c s7).bind fun s8 =>
    (upd_nosun c s8).bind fun s9 =>
    (upd_region_lat c s9).bind fun s10 =>
    (upd_region_lon c s10).bind fun s11 =>
    upd_longnames c s11

/-! ### calc_region -/

/-- Model of `lon2mx`: spherical-mercator x of a longitude, `R * radians(lon)`. -/
noncomputable def lon2mx (lon : ℚ) : ℝ :=
  6378137 * ((lon : ℝ) * Real.pi / 180)

/-- Model of `lat2my`: spherical-mercator y of a latitude,
`R * ln(tan(pi/4 + radians(lat)/2))`. -/
noncomputable def lat2my (lat : ℚ) : ℝ :=
  6378137 * Real.log (Real.tan (Real.pi / 4 + ((lat : ℝ) * Real.pi / 180) / 2))

/-- The derived entries `calc_region` stores into `self.region`. -/
structure RegionDerived where
  mercator_x : List ℝ
  mercator_y : List ℝ
  aspect_ratio : ℝ

/-- Model of `calc_region` applied to the lat/lon ranges: maps the mercator
conversions over both ranges and forms `delta(x)/delta(y)` from the first
two entries of each.  A range with fewer than two entries is an uncaught
`IndexError` in `delta` (`none`). -/
noncomputable def calc_region (latR lonR : List ℚ) : Option RegionDerived :=
  match latR, lonR with
  | la0 :: la1 :: lar, lo0 :: lo1 :: lor =>
      some { mercator_x := (lo0 :: lo1 :: lor).map lon2mx
             mercator_y := (la0 :: la1 :: lar).map lat2my
             aspect_ratio := (lon2mx lo1 - lon2mx lo0) / (lat2my la1 - lat2my la0) }
  | _, _ => none

/-! ### Full resolution pipeline -/

inductive ResolveError where
  /-- An uncaught `ValueError` raised while applying override values. -/
  | overrideValueError : ResolveError
  /-- An uncaught `IndexError` raised in `calc_region`'s `delta`. -/
  | regionIndexError : ResolveError
  /-- The `FileNotFoundError` from `check_paths_exist`, carrying the path. -/
  | directoryNotFound (path : String) : ResolveError
deriving DecidableEq

structure Resolved where
  cfg : S3car
  region : RegionDerived

/-- Location of the override file: `os.path.join(etc_dir, "local.conf")`
after the environment prefix has been applied to `etc_dir`. -/
def local_conf_path (env : Option String) (etc_dir : String) : String :=
  pathJoin (resolved_dir env etc_dir) "local.conf"

/-- Model of `S3car.__init__` up to (and excluding) `set_radar_site_info`:
build the defaults, apply the override file, recompute the derived region
fields, then check every path attribute exists.  `readConf` models the
file system's answer to `ConfigParser.read` at a given path and `ex`
models `os.path.exists`. -/
noncomputable def s3car_resolve (env : Option String) (root_dir etc_dir html_dir : String)
    (readConf : String → Option Cfg) (ex : String → Bool) : Except ResolveError Resolved :=
  match read_local_config (S3car_init env root_dir html_dir)
      (readConf (local_conf_path env etc_dir)) with
  | none => .error .overrideValueError
  | some s =>
    match calc_region s.region_lat s.region_lon with
    | none => .error .regionIndexError
    | some reg =>
      match check_paths_exist ex s with
      | some p => .error (.directoryNotFound p)
      | none => .ok ⟨s, reg⟩

/-! ### io.py: ODIMFileInfo -/

/-- Model of `os.path.basename` (POSIX): everything after the last `/`. -/
def basename (p : String) : String :=
  ⟨(p.data.reverse.takeWhile (fun c => c ≠ '/')).reverse⟩

/-- Leading run of decimal digits, as matched by `re.match` with pattern
`\d+` (empty when the first character is not a digit). -/
def leadingDigits (s : String) : String :=
  ⟨s.data.takeWhile Char.isDigit⟩

inductive RidErr where
  /-- A `ValueError`: no radar ID found in the basename. -/
  | noRadarId : RidErr
  /-- A `ValueError`: parsed radar ID out of range (`rid <= 0 or rid > 1000`). -/
  | invalidRadarId (rid : ℕ) : RidErr
deriving DecidableEq

/-- Model of `ODIMFileInfo.get_rid`: leading digits of the basename, converted by
`int`, then range-checked. The digits of a `\d+` match are non-negative, so
`rid <= 0` can only fire as `rid == 0`. -/
def get_rid (fname : String) : Except RidErr ℕ :=
  let d := leadingDigits (basename fname)
  if d = "" then .error .noRadarId
  else
    let rid := natOfDigits d.data
    if rid = 0 ∨ rid > 1000 then .error (.invalidRadarId rid)
    else .ok rid

/-- The `for dt_idx in itertools.count(1)` loop of `set_infos`: collect the
`quantity` names of `data1`, `data2`, ... in order, stopping at the first
index with no matching child node.  `mem i` models membership of the node
name `data<i>` in `dataset1` and `name i` its quantity attribute; `fuel`
bounds the unbounded `count(1)` iterator (a file has finitely many nodes,
so any fuel past the first gap gives the loop's value). -/
def set_infos_moments (mem : ℕ → Bool) (name : ℕ → String) : ℕ → ℕ → List String
  | 0, _ => []
  | fuel + 1, i =>
      if mem i then name i :: set_infos_moments mem name fuel (i + 1) else []

/-- The `moments` attribute: enumeration starts at `data1`. -/
def moments (mem : ℕ → Bool) (name : ℕ → String) (fuel : ℕ) : List String :=
  set_infos_moments mem name fuel 1

/-! ### Spec-side definition for the refinement claim about tier values -/

/-- Stated from the specification's words, for comparison with
`config_list_int`: the whitespace-separated integer tokens of an override
value (split on any whitespace, empty tokens dropped). -/
def whitespace_separated_ints (v : String) : Option (List ℤ) :=
  (((splitPred Char.isWhitespace v.data).filter (fun t => t ≠ [])).mapM
    (fun t => parsePyIntCore (trimChars t)))

/-! ### Helper lemmas: every override step is a single-field record update -/

theorem upd_country_shape (c : Cfg) (s : S3car) :
    ∃ v, upd_country c s = { s with country_code := v } := by
  unfold upd_country
  cases c.lookup "country" "code" with
  | none => exact ⟨s.country_code, rfl⟩
  | some v => exact ⟨v, rfl⟩

theorem upd_gpm_userid_shape (c : Cfg) (s : S3car) :
    ∃ v, upd_gpm_userid c s = { s with gpm_userid := v } := by
  unfold upd_gpm_userid
  cases c.lookup "gpm" "userid" with
  | none => exact ⟨s.gpm_userid, rfl⟩
  | some v => exact ⟨v, rfl⟩

theorem upd_gpm_requestid_shape (c : Cfg) (s : S3car) :
    ∃ v, upd_gpm_requestid c s = { s with gpm_requestid := v } := by
  unfold upd_gpm_requestid
  cases c.lookup "gpm" "requestid" with
  | none => exact ⟨s.gpm_requestid, rfl⟩
  | some v => exact ⟨v, rfl⟩

theorem upd_rainptl_shape {c : Cfg} {s s' : S3car} (h : upd_rainptl c s = some s') :
    ∃ b, s' = { s with rainptl_enabled := b } := by
  unfold upd_rainptl at h
  split at h
  · rw [Option.map_eq_some'] at h
    obtain ⟨b, _, hb⟩ := h
    exact ⟨b, hb.symm⟩
  · cases h
    exact ⟨s.rainptl_enabled, rfl⟩

theorem upd_tier1_shape {c : Cfg} {s s' : S3car} (h : upd_tier1 c s = some s') :
    ∃ l, s' = { s with tier1_radars := l } := by
  unfold upd_tier1 at h
  split at h
  · rw [Option.map_eq_some'] at h
    obtain ⟨l, _, hl⟩ := h
    exact ⟨l, hl.symm⟩
  · cases h
    exact ⟨s.tier1_radars, rfl⟩

theorem upd_tier2_shape {c : Cfg} {s s' : S3car} (h : upd_tier2 c s = some s') :
    ∃ l, s' = { s with tier2_radars := l } := by
  unfold upd_tier2 at h
  split at h
  · rw [Option.map_eq_some'] at h
    obtain ⟨l, _, hl⟩ := h
    exact ⟨l, hl.symm⟩
  · cases h
    exact ⟨s.tier2_radars, rfl⟩

theorem upd_tier3_shape {c : Cfg} {s s' : S3car} (h : upd_tier3 c s = some s') :
    ∃ l, s' = { s with tier3_radars := l } := by
  unfold upd_tier3 at h
  split at h
  · rw [Option.map_eq_some'] at h
    obtain ⟨l, _, hl⟩ := h
    exact ⟨l, hl.symm⟩
  · cases h
    exact ⟨s.tier3_radars, rfl⟩

theorem upd_censor_shape {c : Cfg} {s s' : S3car} (h : upd_censor c s = some s') :
    ∃ l, s' = { s with censor_radars := l } := by
  unfold upd_censor at h
  split at h
  · rw [Option.map_eq_some'] at h
    obtain ⟨l, _, hl⟩ := h
    exact ⟨l, hl.symm⟩
  · cases h
    exact ⟨s.censor_radars, rfl⟩

theorem upd_nosun_shape {c : Cfg} {s s' : S3car} (h : upd_nosun c s = some s') :
    ∃ l, s' = { s with nosun_radars := l } := by
  unfold upd_nosun at h
  split at h
  · rw [Option.map_eq_some'] at h
    obtain ⟨l, _, hl⟩ := h
    exact ⟨l, hl.symm⟩
  · cases h
    exact ⟨s.nosun_radars, rfl⟩

theorem upd_region_lat_shape {c : Cfg} {s s' : S3car} (h : upd_region_lat c s = some s') :
    ∃ l, s' = { s with region_lat := l } := by
  unfold upd_region_lat at h
  split at h
  · rw [Option.map_eq_some'] at h
    obtain ⟨l, _, hl⟩ := h
    exact ⟨l, hl.symm⟩
  · cases h
    exact ⟨s.region_lat, rfl⟩

theorem upd_region_lon_shape {c : Cfg} {s s' : S3car} (h : upd_region_lon c s = some s') :
    ∃ l, s' = { s with region_lon := l } := by
  unfold upd_region_lon at h
  split at h
  · rw [Option.map_eq_some'] at h
    obtain ⟨l, _, hl⟩ := h
    exact ⟨l, hl.symm⟩
  · cases h
    exact ⟨s.region_lon, rfl⟩

theorem foldl_longname_shape (c : Cfg) (ids : List ℤ) :
    ∀ s : S3car, ∃ m, ids.foldl (longname_step c) s = { s with radar_longname := m } := by
  induction ids with
  | nil => exact fun s => ⟨s.radar_longname, rfl⟩
  | cons rid rest ih =>
      intro s
      have hstep : ∃ m₁, longname_step c s rid = { s with radar_longname := m₁ } := by
        unfold longname_step
        split
        · exact ⟨_, rfl⟩
        · exact ⟨s.radar_longname, rfl⟩
      obtain ⟨m₁, hm₁⟩ := hstep
      obtain ⟨m₂, hm₂⟩ := ih { s with radar_longname := m₁ }
      refine ⟨m₂, ?_⟩
      rw [List.foldl_cons, hm₁]
      exact hm₂

theorem upd_longnames_shape {c : Cfg} {s s' : S3car} (h : upd_longnames c s = some s') :
    ∃ m, s' = { s with radar_longname := m } := by
  unfold upd_longnames at h
  split at h
  · rw [Option.map_eq_some'] at h
    obtain ⟨ids, _, hi⟩ := h
    obtain ⟨m, hm⟩ := foldl_longname_shape c ids s
    exact ⟨m, by rw [← hi, hm]⟩
  · cases h
    exact ⟨s.radar_longname, rfl⟩

/-- Decomposition of a successful `read_local_config` run into its
intermediate states. -/
theorem read_local_config_steps {s : S3car} {c : Cfg} {s' : S3car}
    (h : read_local_config s (some c) = some s') :
    ∃ s4 s5 s6 s7 s8 s9 s10 s11,
      upd_rainptl c (upd_gpm_requestid c (upd_gpm_userid c (upd_country c s))) = some s4 ∧
      upd_tier1 c s4 = some s5 ∧ upd_tier2 c s5 = some s6 ∧ upd_tier3 c s6 = some s7 ∧
      upd_censor c s7 = some s8 ∧ upd_nosun c s8 = some s9 ∧
      upd_region_lat c s9 = some s10 ∧ upd_region_lon c s10 = some s11 ∧
      upd_longnames c s11 = some s' := by
  unfold read_local_config at h
  simp only [Option.bind_eq_some] at h
  obtain ⟨s4, h4, s5, h5, s6, h6, s7, h7, s8, h8, s9, h9, s10, h10, s11, h11, hl⟩ := h
  exact ⟨s4, s5, s6, s7, s8, s9, s10, s11, h4, h5, h6, h7, h8, h9, h10, h11, hl⟩

theorem upd_tier1_value {c : Cfg} {s s' : S3car} {v : String} {l : List ℤ}
    (hv : c.lookup "radar" "tier1" = some v) (hcl : config_list_int v = some l)
    (h : upd_tier1 c s = some s') : s' = { s with tier1_radars := l } := by
  simp only [upd_tier1, hv, hcl, Option.map_some', Option.some.injEq] at h
  exact h.symm

theorem upd_region_lat_value {c : Cfg} {s s' : S3car} {v : String} {l : List ℚ}
    (hv : c.lookup "region" "lat" = some v) (hcl : config_list_float v = some l)
    (h : upd_region_lat c s = some s') : s' = { s with region_lat := l } := by
  simp only [upd_region_lat, hv, hcl, Option.map_some', Option.some.injEq] at h
  exact h.symm

theorem upd_region_lon_value {c : Cfg} {s s' : S3car} {v : String} {l : List ℚ}
    (hv : c.lookup "region" "lon" = some v) (hcl : config_list_float v = some l)
    (h : upd_region_lon c s = some s') : s' = { s with region_lon := l } := by
  simp only [upd_region_lon, hv, hcl, Option.map_some', Option.some.injEq] at h
  exact h.symm

/-- The `find?` of a list returns the head of the suffix when everything before it fails
the predicate and it passes. -/
theorem find?_middle {p : String → Bool} :
    ∀ (ps₁ : List String) (x : String) (ps₂ : List String),
      (∀ q ∈ ps₁, p q = false) → p x = true →
      (ps₁ ++ x :: ps₂).find? p = some x := by
  intro ps₁
  induction ps₁ with
  | nil =>
      intro x ps₂ _ hx
      rw [List.nil_append, List.find?_cons_of_pos _ hx]
  | cons a as ih =>
      intro x ps₂ h1 hx
      have ha : p a = false := h1 a (by simp)
      rw [List.cons_append, List.find?_cons_of_neg _ (by simp [ha])]
      exact ih x ps₂ (fun q hq => h1 q (by simp [hq])) hx

/-! ### Shared example values used by witnesses -/

/-- The configuration built from the source's default arguments. -/
def defaultS3car : S3car :=
  S3car_init none "/srv/data/s3car-server" "/srv/web/s3car-server/www"

/-- An override file setting a country code and a tier list. -/
def overrideCfgEx : Cfg :=
  ⟨[("country", [("code", "NZ")]), ("radar", [("tier1", "5 6")])]⟩

/-- An override file whose tier1 value holds two adjacent spaces. -/
def tierSpaceCfg : Cfg := ⟨[("radar", [("tier1", "5  7")])]⟩

/-- An override file replacing the tier1 list. -/
def tierCfgEx : Cfg := ⟨[("radar", [("tier1", "5 6 7")])]⟩

/-- An override file replacing both region ranges. -/
def regionCfgEx : Cfg := ⟨[("region", [("lat", "-40 -10"), ("lon", "110 150")])]⟩

/-! ### Claim theorems -/

/-- C1: for every override file content, if reading/parsing the override
file fails for any reason (missing file or malformed content),
configuration resolution swallows the failure and proceeds with all
default values unchanged; no parse failure of the override file is ever
surfaced to the caller as an error.  A raising `ConfigParser.read` is the
`none` outcome and a missing file is an empty parser; both leave the state
unchanged, and full resolution cannot distinguish them. -/
theorem c1_parse_failure_swallowed :
    ∀ (s : S3car) (env : Option String) (root_dir etc_dir html_dir : String)
      (ex : String → Bool),
      read_local_config s none = some s ∧
      read_local_config s (some ⟨[]⟩) = some s ∧
      s3car_resolve env root_dir etc_dir html_dir (fun _ => none) ex =
        s3car_resolve env root_dir etc_dir html_dir (fun _ => some ⟨[]⟩) ex := by
  intro s env root_dir etc_dir html_dir ex
  exact ⟨rfl, rfl, rfl⟩

/-- C2: `get_radar_tier` returns 1 for members of the tier1 list, else 2
for members of the tier2 list, else 3 for members of the tier3 list, else
0; an ID present in several lists gets the lowest-numbered tier because
tier1 is checked first, then tier2, then tier3. -/
theorem c2_radar_tier_first_match :
    ∀ (s : S3car) (rid : ℤ),
      (rid ∈ s.tier1_radars → get_radar_tier s rid = 1) ∧
      (rid ∉ s.tier1_radars → rid ∈ s.tier2_radars → get_radar_tier s rid = 2) ∧
      (rid ∉ s.tier1_radars → rid ∉ s.tier2_radars → rid ∈ s.tier3_radars →
        get_radar_tier s rid = 3) ∧
      (rid ∉ s.tier1_radars → rid ∉ s.tier2_radars → rid ∉ s.tier3_radars →
        get_radar_tier s rid = 0) := by
  intro s rid
  refine ⟨fun h1 => ?_, fun h1 h2 => ?_, fun h1 h2 h3 => ?_, fun h1 h2 h3 => ?_⟩ <;>
    simp [get_radar_tier, *]

/-- Witness for C2 on the built-in default lists (2 is tier 1, 1 is tier 2,
9 is tier 3, 1000 is unknown) and on a configuration that artificially
places ID 2 in all three lists (tier 1 wins). -/
theorem c2_radar_tier_first_match_witness :
    get_radar_tier defaultS3car 2 = 1 ∧
    get_radar_tier defaultS3car 1 = 2 ∧
    get_radar_tier defaultS3car 9 = 3 ∧
    get_radar_tier defaultS3car 1000 = 0 ∧
    get_radar_tier { defaultS3car with tier2_radars := [2], tier3_radars := [2] } 2 = 1 :=
  ⟨(c2_radar_tier_first_match defaultS3car 2).1 (by decide),
   (c2_radar_tier_first_match defaultS3car 1).2.1 (by decide) (by decide),
   (c2_radar_tier_first_match defaultS3car 9).2.2.1 (by decide) (by decide) (by decide),
   (c2_radar_tier_first_match defaultS3car 1000).2.2.2 (by decide) (by decide) (by decide),
   (c2_radar_tier_first_match { defaultS3car with tier2_radars := [2], tier3_radars := [2] } 2).1
     (by decide)⟩

/-- C9: the zdr range is fixed at (-2, 2) with step 0.08, and the derived
bin count equals round((max - min) / step) = round(4 / 0.08) = 50. -/
theorem c9_zdr_bins_fifty :
    ∀ (env : Option String) (root_dir html_dir : String),
      (S3car_init env root_dir html_dir).zdr_range = (-2, 2) ∧
      (S3car_init env root_dir html_dir).zdr_step = |(8 / 100 : ℚ)| ∧
      (S3car_init env root_dir html_dir).zdr_bins =
        round (((S3car_init env root_dir html_dir).zdr_range.2 -
            (S3car_init env root_dir html_dir).zdr_range.1) /
          (S3car_init env root_dir html_dir).zdr_step) ∧
      (S3car_init env root_dir html_dir).zdr_bins = 50 := by
  intro env root_dir html_dir
  refine ⟨rfl, rfl, rfl, ?_⟩
  show round (((2 : ℚ) - (-2)) / |(8 / 100 : ℚ)|) = 50
  have h : ((2 : ℚ) - (-2)) / |(8 / 100 : ℚ)| = ((50 : ℕ) : ℚ) := by
    rw [abs_of_nonneg (by norm_num : (0 : ℚ) ≤ 8 / 100)]
    norm_num
  rw [h, round_natCast]
  norm_num

/-- C4: when the deployment-root environment variable is set, all three
directory inputs are prefixed with its value by string concatenation (not
path joining) before any path resolution; resolution with the variable set
agrees with resolution on the pre-concatenated directories, and with it
unset the supplied directories are used unchanged.  Concretely, env root
`/tmp/x` and root dir `/srv/data/s3car-server` give paths starting with
`/tmp/x/srv/data/s3car-server`. -/
theorem c4_env_root_concat :
    ∀ (er root_dir etc_dir html_dir d : String) (readConf : String → Option Cfg)
      (ex : String → Bool),
      s3car_resolve (some er) root_dir etc_dir html_dir readConf ex =
        s3car_resolve none (er ++ root_dir) (er ++ etc_dir) (er ++ html_dir) readConf ex ∧
      resolved_dir (some er) d = er ++ d ∧
      resolved_dir none d = d ∧
      (S3car_init (some er) root_dir html_dir).root_path = er ++ root_dir ∧
      (S3car_init (some er) root_dir html_dir).html_path = er ++ html_dir ∧
      local_conf_path (some er) etc_dir = pathJoin (er ++ etc_dir) "local.conf" ∧
      (S3car_init (some "/tmp/x") "/srv/data/s3car-server" "/srv/web/s3car-server/www").root_path =
        "/tmp/x/srv/data/s3car-server" ∧
      (S3car_init (some "/tmp/x") "/srv/data/s3car-server" "/srv/web/s3car-server/www").html_path =
        "/tmp/x/srv/web/s3car-server/www" ∧
      (pathsOf (S3car_init (some "/tmp/x") "/srv/data/s3car-server"
          "/srv/web/s3car-server/www")).all
        (fun p => "/tmp/x".data.isPrefixOf p.data) = true ∧
      "/tmp/x/srv/data/s3car-server".data.isPrefixOf
        (S3car_init (some "/tmp/x") "/srv/data/s3car-server"
          "/srv/web/s3car-server/www").cluttercal_path.data = true := by
  intro er root_dir etc_dir html_dir d readConf ex
  exact ⟨rfl, rfl, rfl, rfl, rfl, rfl, by decide, by decide, by decide, by decide⟩

/-- C10: an accepted override run mutates only the documented override
targets; every path attribute and the zdr range, step and bin count are
unchanged by `read_local_config`, whatever the override file contains. -/
theorem c10_override_frame :
    ∀ (s : S3car) (pr : Option Cfg) (s' : S3car),
      read_local_config s pr = some s' →
      pathsOf s' = pathsOf s ∧ s'.zdr_range = s.zdr_range ∧
      s'.zdr_step = s.zdr_step ∧ s'.zdr_bins = s.zdr_bins := by
  intro s pr s' h
  cases pr with
  | none =>
      cases h
      exact ⟨rfl, rfl, rfl, rfl⟩
  | some c =>
      obtain ⟨s4, s5, s6, s7, s8, s9, s10, s11, h4, h5, h6, h7, h8, h9, h10, h11, hl⟩ :=
        read_local_config_steps h
      obtain ⟨v1, e1⟩ := upd_country_shape c s
      rw [e1] at h4
      obtain ⟨v2, e2⟩ := upd_gpm_userid_shape c _
      rw [e2] at h4
      obtain ⟨v3, e3⟩ := upd_gpm_requestid_shape c _
      rw [e3] at h4
      obtain ⟨b, rfl⟩ := upd_rainptl_shape h4
      obtain ⟨l1, rfl⟩ := upd_tier1_shape h5
      obtain ⟨l2, rfl⟩ := upd_tier2_shape h6
      obtain ⟨l3, rfl⟩ := upd_tier3_shape h7
      obtain ⟨l4, rfl⟩ := upd_censor_shape h8
      obtain ⟨l5, rfl⟩ := upd_nosun_shape h9
      obtain ⟨l6, rfl⟩ := upd_region_lat_shape h10
      obtain ⟨l7, rfl⟩ := upd_region_lon_shape h11
      obtain ⟨m, rfl⟩ := upd_longnames_shape hl
      exact ⟨rfl, rfl, rfl, rfl⟩

/-- Witness for C10: an override run that changes the country code and the
tier1 list leaves all path attributes and the zdr fields of the default
configuration unchanged. -/
theorem c10_override_frame_witness :
    pathsOf ((read_local_config defaultS3car (some overrideCfgEx)).getD defaultS3car) =
        pathsOf defaultS3car ∧
      ((read_local_config defaultS3car (some overrideCfgEx)).getD defaultS3car).zdr_range =
        defaultS3car.zdr_range ∧
      ((read_local_config defaultS3car (some overrideCfgEx)).getD defaultS3car).zdr_step =
        defaultS3car.zdr_step ∧
      ((read_local_config defaultS3car (some overrideCfgEx)).getD defaultS3car).zdr_bins =
        defaultS3car.zdr_bins :=
  c10_override_frame defaultS3car (some overrideCfgEx)
    ((read_local_config defaultS3car (some overrideCfgEx)).getD defaultS3car) rfl

/-- C3 counterexample: for the override value `"5  7"` (two adjacent
spaces) the whitespace-separated integers are `[5, 7]`, but the code
splits only on single spaces, `int('')` raises, and the uncaught
`ValueError` aborts resolution — no configuration with tier1 = {5, 7} is
produced, falsifying the claim as stated. -/
theorem c3_whitespace_counterexample :
    Cfg.lookup tierSpaceCfg "radar" "tier1" = some "5  7" ∧
    whitespace_separated_ints "5  7" = some [5, 7] ∧
    config_list_int "5  7" = none ∧
    read_local_config defaultS3car (some tierSpaceCfg) = none := by
  exact ⟨rfl, by decide, by decide, rfl⟩

/-- C3 (amended): when the override file provides a radar tier key whose
value `config_list` accepts — a single-space-separated integer list — the
resolved tier set is exactly those integers, fully replacing the built-in
default set rather than merging with it, and an empty string value yields
an empty set.  (Values whose tokens are separated by anything other than
one single space raise an uncaught `ValueError` instead.) -/
theorem c3_tier_override_replaces :
    (∀ (s : S3car) (c : Cfg) (v : String) (l : List ℤ) (s' : S3car),
        c.lookup "radar" "tier1" = some v → config_list_int v = some l →
        read_local_config s (some c) = some s' → s'.tier1_radars = l) ∧
    config_list_int "" = some [] ∧
    config_list_int "5 6 7" = some [5, 6, 7] := by
  refine ⟨?_, by decide, by decide⟩
  intro s c v l s' hv hcl h
  obtain ⟨s4, s5, s6, s7, s8, s9, s10, s11, h4, h5, h6, h7, h8, h9, h10, h11, hl⟩ :=
    read_local_config_steps h
  have e5 : s5 = { s4 with tier1_radars := l } := upd_tier1_value hv hcl h5
  subst e5
  obtain ⟨l2, rfl⟩ := upd_tier2_shape h6
  obtain ⟨l3, rfl⟩ := upd_tier3_shape h7
  obtain ⟨l4, rfl⟩ := upd_censor_shape h8
  obtain ⟨l5, rfl⟩ := upd_nosun_shape h9
  obtain ⟨l6, rfl⟩ := upd_region_lat_shape h10
  obtain ⟨l7, rfl⟩ := upd_region_lon_shape h11
  obtain ⟨m, rfl⟩ := upd_longnames_shape hl
  rfl

/-- Witness for the amended C3: overriding tier1 with `"5 6 7"` on the
default configuration yields exactly the tier1 set {5, 6, 7}. -/
theorem c3_tier_override_replaces_witness :
    ((read_local_config defaultS3car (some tierCfgEx)).getD defaultS3car).tier1_radars =
      [5, 6, 7] :=
  c3_tier_override_replaces.1 defaultS3car tierCfgEx "5 6 7" [5, 6, 7]
    ((read_local_config defaultS3car (some tierCfgEx)).getD defaultS3car)
    rfl (by decide) rfl

/-- C5: path validation checks every path attribute; if any single resolved
directory is absent — even when every directory before it exists —
resolution fails immediately on the first missing path with an error naming
that path, and no configuration object is produced. -/
theorem c5_missing_path_fails :
    ∀ (env : Option String) (root_dir etc_dir html_dir : String)
      (readConf : String → Option Cfg) (ex : String → Bool)
      (s : S3car) (p : String) (ps₁ ps₂ : List String),
      read_local_config (S3car_init env root_dir html_dir)
          (readConf (local_conf_path env etc_dir)) = some s →
      (calc_region s.region_lat s.region_lon).isSome = true →
      pathsOf s = ps₁ ++ p :: ps₂ →
      (∀ q ∈ ps₁, ex q = true) →
      ex p = false →
      s3car_resolve env root_dir etc_dir html_dir readConf ex =
        .error (.directoryNotFound p) := by
  intro env root_dir etc_dir html_dir readConf ex s p ps₁ ps₂ hread hreg hpaths hall hp
  obtain ⟨reg, hreg'⟩ := Option.isSome_iff_exists.mp hreg
  have hcheck : check_paths_exist ex s = some p := by
    unfold check_paths_exist
    rw [hpaths]
    exact find?_middle ps₁ p ps₂ (fun q hq => by simp [hall q hq]) (by simp [hp])
  simp only [s3car_resolve, hread, hreg', hcheck]

/-- Witness for C5: with every directory present except the log directory,
resolution of the defaults fails naming exactly the log directory. -/
theorem c5_missing_path_fails_witness :
    s3car_resolve none "/srv/data/s3car-server" "/etc/opt/s3car-server/"
        "/srv/web/s3car-server/www" (fun _ => none)
        (fun q => !(q == "/srv/data/s3car-server/log")) =
      .error (.directoryNotFound "/srv/data/s3car-server/log") :=
  c5_missing_path_fails none "/srv/data/s3car-server" "/etc/opt/s3car-server/"
    "/srv/web/s3car-server/www" (fun _ => none)
    (fun q => !(q == "/srv/data/s3car-server/log")) defaultS3car
    "/srv/data/s3car-server/log"
    ["/srv/data/s3car-server", "/srv/data/s3car-server/cluttercal",
     "/srv/data/s3car-server/config", "/srv/data/s3car-server/s3car_diagnostics/clean",
     "/srv/data/s3car-server/s3car_diagnostics/diagnostics",
     "/srv/data/s3car-server/s3car_diagnostics/raw", "/srv/data/s3car-server/dualpol_qc",
     "/srv/data/s3car-server/gpmmatch", "/srv/web/s3car-server/www"]
    ["/srv/data/s3car-server/solar/data", "/srv/data/s3car-server/sensitivity",
     "/srv/data/s3car-server/vols", "/srv/data/s3car-server/zdr_monitoring"]
    rfl rfl (by decide) (by decide) (by decide)

/-- A list all of whose elements satisfy the predicate is its own
`takeWhile`. -/
theorem takeWhile_of_all {α : Type} {p : α → Bool} :
    ∀ {l : List α}, (∀ x ∈ l, p x = true) → l.takeWhile p = l := by
  intro l
  induction l with
  | nil => intro _; rfl
  | cons a as ih =>
      intro h
      rw [List.takeWhile_cons_of_pos (h a (by simp)), ih (fun x hx => h x (by simp [hx]))]

/-- The basename ignores the directory part: appending a directory
and a slash in front of a slash-free file name does not change it. -/
theorem basename_append (d f : String) (hf : ∀ ch ∈ f.data, ch ≠ '/') :
    basename (d ++ "/" ++ f) = basename f := by
  have hall : ∀ ch ∈ f.data.reverse, (fun c => decide (c ≠ '/')) ch = true := by
    intro ch hch
    simpa using hf ch (List.mem_reverse.mp hch)
  have hdata : (d ++ "/" ++ f).data = d.data ++ '/' :: f.data := by
    simp
  unfold basename
  rw [hdata, List.reverse_append, List.reverse_cons, List.append_assoc,
      List.singleton_append, List.takeWhile_append_of_pos hall,
      List.takeWhile_cons_of_neg (by simp), List.append_nil, takeWhile_of_all hall]

/-- C6: radar-file metadata extracts the radar ID as the leading run of
decimal digits of the file's base name (directory components ignored);
no leading digits is a "no radar ID" error, a parsed value of 0 (the only
way `rid <= 0` can fire on a digit run) or above 1000 is an "invalid radar
ID" error, and anything else succeeds.  In particular
`"12345_20210601_120000.h5"` raises InvalidRadarId and a name starting
`"42_"` yields radar ID 42. -/
theorem c6_get_rid_rules :
    (∀ f : String, leadingDigits (basename f) = "" → get_rid f = .error .noRadarId) ∧
    (∀ f : String, leadingDigits (basename f) ≠ "" →
      (natOfDigits (leadingDigits (basename f)).data = 0 ∨
        natOfDigits (leadingDigits (basename f)).data > 1000) →
      get_rid f = .error (.invalidRadarId (natOfDigits (leadingDigits (basename f)).data))) ∧
    (∀ f : String, leadingDigits (basename f) ≠ "" →
      0 < natOfDigits (leadingDigits (basename f)).data →
      natOfDigits (leadingDigits (basename f)).data ≤ 1000 →
      get_rid f = .ok (natOfDigits (leadingDigits (basename f)).data)) ∧
    (∀ d f : String, (∀ ch ∈ f.data, ch ≠ '/') → get_rid (d ++ "/" ++ f) = get_rid f) ∧
    get_rid "12345_20210601_120000.h5" = .error (.invalidRadarId 12345) ∧
    get_rid "42_20210601_120000.h5" = .ok 42 := by
  refine ⟨?_, ?_, ?_, ?_, rfl, rfl⟩
  · intro f h
    simp [get_rid, h]
  · intro f h h2
    simp [get_rid, h, h2]
  · intro f h h2 h3
    have hcond : ¬(natOfDigits (leadingDigits (basename f)).data = 0 ∨
        natOfDigits (leadingDigits (basename f)).data > 1000) := by omega
    simp [get_rid, h, hcond]
  · intro d f hf
    unfold get_rid
    rw [basename_append d f hf]

/-- Witness for C6: a digit-free name gives NoRadarId, a leading zero gives
InvalidRadarId 0, 777 succeeds, and a directory part is ignored. -/
theorem c6_get_rid_rules_witness :
    get_rid "nodigits.h5" = .error .noRadarId ∧
    get_rid "0_x.h5" = .error (.invalidRadarId 0) ∧
    get_rid "777_x.h5" = .ok 777 ∧
    get_rid ("/tmp/a" ++ "/" ++ "42_b.h5") = get_rid "42_b.h5" :=
  ⟨c6_get_rid_rules.1 "nodigits.h5" (by decide),
   c6_get_rid_rules.2.1 "0_x.h5" (by decide) (by decide),
   c6_get_rid_rules.2.2.1 "777_x.h5" (by decide) (by decide) (by decide),
   c6_get_rid_rules.2.2.2.1 "/tmp/a" "42_b.h5" (by decide)⟩

/-- The enumeration loop collects `name i, name (i+1), ...` up to the first
gap `g`, provided the fuel reaches the gap. -/
theorem set_infos_moments_eq (mem : ℕ → Bool) (name : ℕ → String) (g : ℕ) :
    ∀ (fuel i : ℕ), mem g = false → (∀ j, j < g → i ≤ j → mem j = true) →
      i ≤ g → g ≤ i + fuel →
      set_infos_moments mem name fuel i = (List.range' i (g - i)).map name := by
  intro fuel
  induction fuel with
  | zero =>
      intro i hg hall hig hgi
      have hi : i = g := by omega
      subst hi
      simp [set_infos_moments, Nat.sub_self]
  | succ fuel ih =>
      intro i hg hall hig hgi
      by_cases hi : i = g
      · subst hi
        simp [set_infos_moments, hg, Nat.sub_self]
      · have hilt : i < g := lt_of_le_of_ne hig hi
        have hmi : mem i = true := hall i hilt le_rfl
        rw [set_infos_moments, if_pos hmi,
            ih (i + 1) hg (fun j hj hij => hall j hj (by omega)) (by omega) (by omega),
            show g - i = (g - (i + 1)) + 1 from by omega, List.range'_succ, List.map_cons]

/-- C7: the moments list enumerates `data1`, `data2`, ... strictly
sequentially from index 1 and stops at the first missing index, keeping
the file's enumeration order; with data1..data3 present, data4 absent and
data5 present, the list has the three entries for data1..data3, not four. -/
theorem c7_moments_stop_at_first_gap :
    (∀ (mem : ℕ → Bool) (name : ℕ → String) (g fuel : ℕ),
        mem g = false → (∀ j, j < g → 1 ≤ j → mem j = true) → 1 ≤ g → g ≤ 1 + fuel →
        moments mem name fuel = (List.range' 1 (g - 1)).map name ∧
        (moments mem name fuel).length = g - 1) ∧
    (∀ name : ℕ → String,
        moments (fun i => decide (i ∈ ([1, 2, 3, 5] : List ℕ))) name 10 =
          [name 1, name 2, name 3]) := by
  constructor
  · intro mem name g fuel hg hall h1 hfuel
    have he : moments mem name fuel = (List.range' 1 (g - 1)).map name :=
      set_infos_moments_eq mem name g fuel 1 hg (fun j hj hij => hall j hj hij) h1 hfuel
    exact ⟨he, by rw [he]; simp⟩
  · intro name
    rfl

/-- Witness for C7: membership {1,2,3,5} (gap at 4) yields exactly the
three names for indices 1..3. -/
theorem c7_moments_stop_at_first_gap_witness :
    moments (fun i => decide (i ∈ ([1, 2, 3, 5] : List ℕ))) (fun i => toString i) 10 =
        (List.range' 1 3).map (fun i => toString i) ∧
      (moments (fun i => decide (i ∈ ([1, 2, 3, 5] : List ℕ))) (fun i => toString i) 10).length =
        3 :=
  c7_moments_stop_at_first_gap.1 (fun i => decide (i ∈ ([1, 2, 3, 5] : List ℕ)))
    (fun i => toString i) 4 10 (by decide) (by decide) (by decide) (by decide)

/-- C8: after resolution the derived region fields are computed from the
final (possibly override-replaced) lat/lon ranges with Earth radius
R = 6378137, mercatorX(lon) = R·radians(lon),
mercatorY(lat) = R·ln(tan(pi/4 + radians(lat)/2)) and
aspectRatio = (mercX(lonMax)-mercX(lonMin)) / (mercY(latMax)-mercY(latMin));
an accepted region override replaces the ranges the projection is applied
to, so the derived fields are never computed from the stale defaults. -/
theorem c8_region_recomputed :
    ∀ (env : Option String) (root_dir etc_dir html_dir : String)
      (readConf : String → Option Cfg) (ex : String → Bool) (r : Resolved),
      s3car_resolve env root_dir etc_dir html_dir readConf ex = .ok r →
      calc_region r.cfg.region_lat r.cfg.region_lon = some r.region ∧
      (∀ la0 la1 lar lo0 lo1 lor, r.cfg.region_lat = la0 :: la1 :: lar →
        r.cfg.region_lon = lo0 :: lo1 :: lor →
        r.region.mercator_x = (lo0 :: lo1 :: lor).map
          (fun lon : ℚ => (6378137 : ℝ) * ((lon : ℝ) * Real.pi / 180)) ∧
        r.region.mercator_y = (la0 :: la1 :: lar).map
          (fun lat : ℚ => (6378137 : ℝ) *
            Real.log (Real.tan (Real.pi / 4 + ((lat : ℝ) * Real.pi / 180) / 2))) ∧
        r.region.aspect_ratio =
          ((6378137 : ℝ) * ((lo1 : ℝ) * Real.pi / 180) -
            (6378137 : ℝ) * ((lo0 : ℝ) * Real.pi / 180)) /
          ((6378137 : ℝ) * Real.log (Real.tan (Real.pi / 4 + ((la1 : ℝ) * Real.pi / 180) / 2)) -
            (6378137 : ℝ) *
              Real.log (Real.tan (Real.pi / 4 + ((la0 : ℝ) * Real.pi / 180) / 2)))) ∧
      (∀ (c : Cfg) (v : String) (l : List ℚ),
        readConf (local_conf_path env etc_dir) = some c →
        c.lookup "region" "lat" = some v → config_list_float v = some l →
        r.cfg.region_lat = l) ∧
      (∀ (c : Cfg) (v : String) (l : List ℚ),
        readConf (local_conf_path env etc_dir) = some c →
        c.lookup "region" "lon" = some v → config_list_float v = some l →
        r.cfg.region_lon = l) := by
  intro env root_dir etc_dir html_dir readConf ex r h
  unfold s3car_resolve at h
  split at h
  · exact Except.noConfusion h
  · rename_i s hread
    split at h
    · exact Except.noConfusion h
    · rename_i reg hreg
      split at h
      · exact Except.noConfusion h
      · rename_i hchk
        injection h with h2
        subst h2
        refine ⟨hreg, ?_, ?_, ?_⟩
        · intro la0 la1 lar lo0 lo1 lor hla hlo
          rw [hla, hlo] at hreg
          simp only [calc_region, Option.some.injEq] at hreg
          refine ⟨?_, ?_, ?_⟩ <;> rw [← hreg] <;> rfl
        · intro c v l hc hv hcl
          rw [hc] at hread
          obtain ⟨s4, s5, s6, s7, s8, s9, s10, s11, h4, h5, h6, h7, h8, h9, h10,
            h11, hl⟩ := read_local_config_steps hread
          have e10 : s10 = { s9 with region_lat := l } := upd_region_lat_value hv hcl h10
          subst e10
          obtain ⟨l7, rfl⟩ := upd_region_lon_shape h11
          obtain ⟨m, hm⟩ := upd_longnames_shape hl
          rw [hm]
        · intro c v l hc hv hcl
          rw [hc] at hread
          obtain ⟨s4, s5, s6, s7, s8, s9, s10, s11, h4, h5, h6, h7, h8, h9, h10,
            h11, hl⟩ := read_local_config_steps hread
          have e11 : s11 = { s10 with region_lon := l } := upd_region_lon_value hv hcl h11
          subst e11
          obtain ⟨m, hm⟩ := upd_longnames_shape hl
          rw [hm]

/-- The resolved configuration under a region override of lat -40..-10 and
lon 110..150, with every directory present. -/
noncomputable def resolvedRegionEx : Resolved :=
  (s3car_resolve none "/srv/data/s3car-server" "/etc/opt/s3car-server/"
      "/srv/web/s3car-server/www" (fun _ => some regionCfgEx) (fun _ => true)).toOption.getD
    ⟨defaultS3car, ⟨[], [], 0⟩⟩

/-- Witness for C8: with the region overridden to lat -40..-10 and
lon 110..150, the derived aspect ratio is computed from the overridden
bounds. -/
theorem c8_region_recomputed_witness :
    resolvedRegionEx.cfg.region_lat = [-40, -10] ∧
    resolvedRegionEx.cfg.region_lon = [110, 150] ∧
    resolvedRegionEx.region.aspect_ratio =
      ((6378137 : ℝ) * (((150 : ℚ) : ℝ) * Real.pi / 180) -
        (6378137 : ℝ) * (((110 : ℚ) : ℝ) * Real.pi / 180)) /
      ((6378137 : ℝ) *
          Real.log (Real.tan (Real.pi / 4 + (((-10 : ℚ) : ℝ) * Real.pi / 180) / 2)) -
        (6378137 : ℝ) *
          Real.log (Real.tan (Real.pi / 4 + (((-40 : ℚ) : ℝ) * Real.pi / 180) / 2))) := by
  have h : s3car_resolve none "/srv/data/s3car-server" "/etc/opt/s3car-server/"
      "/srv/web/s3car-server/www" (fun _ => some regionCfgEx) (fun _ => true) =
        .ok resolvedRegionEx := rfl
  have c := c8_region_recomputed none "/srv/data/s3car-server" "/etc/opt/s3car-server/"
    "/srv/web/s3car-server/www" (fun _ => some regionCfgEx) (fun _ => true) resolvedRegionEx h
  have hlat : resolvedRegionEx.cfg.region_lat = [-40, -10] :=
    c.2.2.1 regionCfgEx "-40 -10" [-40, -10] rfl rfl (by decide)
  have hlon : resolvedRegionEx.cfg.region_lon = [110, 150] :=
    c.2.2.2 regionCfgEx "110 150" [110, 150] rfl rfl (by decide)
  exact ⟨hlat, hlon, (c.2.1 (-40) (-10) [] 110 150 [] hlat hlon).2.2⟩

end Scarconf
